import Mathlib

/-!
Verification development for the ssh2incus session dispatcher.

The Go sources embedded here:
* `src/unnamed/part_001` (package `server`): exit-code constants,
  `setupEnvironmentVariables`, `buildCommandString`, `shellHandler`,
  `incusShell`.
* `src/unnamed/part_000` (package `user`): `idGroupList`, `idGroupNameList`.
* `src/server/banner.go` (package `server`): the package-level `banner`
  template and `bannerHandler`.

Effectful code is embedded as explicit state passing: the dispatcher is a
function from an oracle `World` (the answers the surrounding system would
give: connection results, container-API lookups, the SSH session's inputs)
to a `HandlerResult` trace recording what the handler wrote, which exit
code it reported, and which calls it made.
-/

set_option maxRecDepth 8192

namespace Ssh2Incus

/-- Whitespace per Go's `unicode.IsSpace` over the ASCII range used by the
embedded code: space, tab, newline, carriage return, vertical tab, form
feed. -/
def isSpaceChar (c : Char) : Bool :=
  c == ' ' || c == '\t' || c == '\n' || c == '\r' || c == '\x0b' || c == '\x0c'

/-- Go's `strings.Contains(s, string(c))` for a one-character needle. -/
def strContains (s : String) (c : Char) : Bool :=
  s.data.any (fun a => a == c)

/-- Trim leading and trailing whitespace from a character list. -/
def trimChars (l : List Char) : List Char :=
  ((l.dropWhile isSpaceChar).reverse.dropWhile isSpaceChar).reverse

/-- Go's `bytes.TrimSpace` / `strings.TrimSpace`. -/
def strTrim (s : String) : String :=
  ⟨trimChars s.data⟩

/-- Accumulating worker for `stringFields`. -/
def fieldsAux : List Char → List Char → List String
  | [], acc => if acc.isEmpty then [] else [⟨acc.reverse⟩]
  | c :: cs, acc =>
    if isSpaceChar c then
      if acc.isEmpty then fieldsAux cs []
      else ⟨acc.reverse⟩ :: fieldsAux cs []
    else fieldsAux cs (c :: acc)

/-- Go's `strings.Fields`: the maximal runs of non-whitespace characters. -/
def stringFields (s : String) : List String :=
  fieldsAux s.data []

/-- Accumulating worker for `splitOnChar`. -/
def splitOnCharAux (sep : Char) : List Char → List Char → List String
  | [], acc => [⟨acc.reverse⟩]
  | c :: cs, acc =>
    if c == sep then ⟨acc.reverse⟩ :: splitOnCharAux sep cs []
    else splitOnCharAux sep cs (c :: acc)

/-- Go's `strings.Split(s, string(sep))` for a one-character separator:
always returns at least one (possibly empty) piece. -/
def splitOnChar (s : String) (sep : Char) : List String :=
  splitOnCharAux sep s.data []

/-- Join pieces with a separator; inverse of `splitOnChar` on the tail,
used to embed `strings.SplitN(v, "=", 2)`. -/
def joinWith (sep : String) : List String → String
  | [] => ""
  | [x] => x
  | x :: xs => x ++ sep ++ joinWith sep xs

/-- Exit-code constants from the source (src/unnamed/part_001, lines 24-32). -/
def ExitCodeNotImplemented : Int := -1

/-- Exit code 1: invalid login. -/
def ExitCodeInvalidLogin : Int := 1

/-- Exit code 2: invalid project. -/
def ExitCodeInvalidProject : Int := 2

/-- Exit code 3: metadata error. -/
def ExitCodeMetaError : Int := 3

/-- Exit code 4: architecture error. -/
def ExitCodeArchitectureError : Int := 4

/-- Exit code 20: internal error. -/
def ExitCodeInternalError : Int := 20

/-- Exit code 255: backend connection error. -/
def ExitCodeConnectionError : Int := 255

/-- Modelled from the spec: the configured shell mode. The constants
`ShellSu` and `ShellLogin` matched by `buildCommandString`'s switch are not
under src/; per the spec (§6 Configuration) `Shell ∈ {su, login, shell}`,
so the mode is embedded as this three-valued enumeration, the source's
`default` switch branch being `ShellShell`. -/
inductive ShellMode
  | ShellSu
  | ShellLogin
  | ShellShell
deriving DecidableEq

/-- The configuration fields the embedded core reads: `config.Shell` and
`config.IncusSocket`. -/
structure Config where
  Shell : ShellMode
  IncusSocket : String

/-- The parsed login descriptor (`LoginUser` in package `server`): the
fields read by `shellHandler` and `bannerHandler`. -/
structure LoginUser where
  User : String
  InstanceUser : String
  Instance : String
  Project : String
deriving DecidableEq

/-- First character of an identifier per the spec grammar: `[A-Za-z0-9_]`. -/
def identFirstChar (c : Char) : Bool :=
  c.isAlphanum || c == '_'

/-- Subsequent character of an identifier per the spec grammar: `[A-Za-z0-9_.-]`. -/
def identRestChar (c : Char) : Bool :=
  c.isAlphanum || c == '_' || c == '.' || c == '-'

/-- A non-empty identifier per the spec grammar `[A-Za-z0-9_][A-Za-z0-9_.-]*`. -/
def isIdent (s : String) : Bool :=
  match s.data with
  | [] => false
  | c :: cs => identFirstChar c && cs.all identRestChar

/-- A field that may be empty or an identifier. -/
def optIdent (s : String) : Bool :=
  s == "" || isIdent s

/-- Modelled from the spec: `LoginUser.IsValid` is not under src/. Per
§3/§6, a descriptor is valid when it is the self-service form
(`instance = "%shell"`), or its instance is a non-empty identifier and the
remaining fields are identifiers when non-empty. -/
def LoginUser.IsValid (lu : LoginUser) : Bool :=
  lu.Instance == "%shell" ||
    (isIdent lu.Instance && optIdent lu.User && optIdent lu.InstanceUser
      && optIdent lu.Project)

/-- Modelled from the spec: `LoginUser.IsDefaultProject` is not under src/.
Per §3 the project field defaults to `default`, so the default-project test
is equality with `"default"`. -/
def LoginUser.IsDefaultProject (lu : LoginUser) : Bool :=
  lu.Project == "default"

/-- The resolved in-container account (`incus.InstanceUser`): the fields the
dispatcher reads (`User`, `Uid`, `Gid`, `Dir`, `Shell`). -/
structure InstanceUser where
  User : String
  Uid : Int
  Gid : Int
  Dir : String
  Shell : String
deriving DecidableEq

/-- The empty environment map (`make(map[string]string)`). Go maps are
embedded as functions from key to optional value. -/
def emptyEnv : String → Option String := fun _ => none

/-- Map update `env[k] = v`. -/
def envInsert (m : String → Option String) (k v : String) :
    String → Option String :=
  fun x => if x = k then some v else m x

/-- `strings.SplitN(v, "=", 2)` followed by the length-2 check: an entry
with at least one `=` yields the part before the first `=` and everything
after it; an entry without `=` is dropped. -/
def parseEnvEntry (v : String) : Option (String × String) :=
  match splitOnChar v '=' with
  | [] => none
  | [_] => none
  | k :: r :: rest => some (k, joinWith "=" (r :: rest))

/-- One iteration of the `for _, v := range s.Environ()` loop in
`setupEnvironmentVariables`. -/
def envStep (m : String → Option String) (v : String) :
    String → Option String :=
  match parseEnvEntry v with
  | some kv => envInsert m kv.1 kv.2
  | none => m

/-- Embedding of `setupEnvironmentVariables` (src/unnamed/part_001, lines
35-59). The SSH session's environment request is the list `environ`; the
PTY request contributes its `Term` field. -/
def setupEnvironmentVariables (environ : List String) (iu : InstanceUser)
    (ptyTerm : String) : String → Option String :=
  let env := environ.foldl envStep emptyEnv
  let env := envInsert env "TERM" (if ptyTerm ≠ "" then ptyTerm else "xterm-256color")
  let env := envInsert env "USER" iu.User
  let env := envInsert env "HOME" iu.Dir
  envInsert env "SHELL" iu.Shell

/-- Embedding of `buildCommandString` (src/unnamed/part_001, lines 62-86).
The session contributes its raw command, the configuration its shell mode.
Returns the command string and the `shouldRunAsUser` flag. -/
def buildCommandString (rawCommand : String) (shellMode : ShellMode)
    (iu : InstanceUser) (remoteAddr : String) : String × Bool :=
  if rawCommand = "" then
    match shellMode with
    | ShellMode.ShellSu => ("su - \"" ++ iu.User ++ "\"", false)
    | ShellMode.ShellLogin =>
        let host := (splitOnChar remoteAddr ':').headD ""
        ("login -h \"" ++ host ++ "\" -f \"" ++ iu.User ++ "\"", false)
    | ShellMode.ShellShell => (iu.Shell ++ " -l", true)
  else
    if strContains rawCommand '$' then
      (iu.Shell ++ " -c \"" ++ rawCommand ++ "\"", true)
    else
      (rawCommand, true)

/-- The fields of the `incus.InstanceExec` request that `shellHandler`
fills in and that this development reasons about (`Instance`, `Cmd`, `Env`,
`IsPty`, `User`, `Group`, `Cwd`); the byte-stream and window-channel fields
are session plumbing outside the shallow embedding. -/
structure InstanceExec where
  Instance : String
  Cmd : String
  Env : String → Option String
  IsPty : Bool
  User : Int
  Group : Int
  Cwd : String

/-- Oracle for one run of `shellHandler`: the answers the SSH session, the
incus client and the OS would give at each effectful call site.
`ctxHasLoginUser` is the success of the context type assertion;
`getInstanceUser` is consulted at most once, with the descriptor's
`(project, instance, user)`; `addSocket` is `some path` when
`d.AddSocket()` succeeds; `execRet`/`execErr` are what `ie.Exec()` returns. -/
structure World where
  ctxHasLoginUser : Bool
  newServerOk : Bool
  connectOk : Bool
  useProjectOk : String → Bool
  getInstanceUser : String → String → String → Option InstanceUser
  agentRequested : Bool
  agentListenerOk : Bool
  addSocket : Option String
  execRet : Int
  execErr : Bool
  environ : List String
  rawCommand : String
  ptyTerm : String
  isPty : Bool
  remoteAddr : String

/-- Trace of one run of `shellHandler`: the strings written to the SSH
session, the exit code passed to `s.Exit` (`none` when the handler returns
without calling it), whether it delegated to `incusShell`, the arguments of
its `UseProject` and `GetInstanceUser` calls, how many times the deferred
`RemoveSocket` runs, and the exec request handed to the exec engine
(`none` when the engine is never invoked). -/
structure HandlerResult where
  writes : List String := []
  exit : Option Int := none
  incusShellCalled : Bool := false
  useProjectCalls : List String := []
  getUserCalls : List (String × String × String) := []
  removeSocketCalls : Nat := 0
  execCall : Option InstanceExec := none

/-- Embedding of `shellHandler` (src/unnamed/part_001, lines 88-222) as a
trace function over the oracle `World`. Control flow follows the source:
validity check, `%shell` short-circuit, server construction, connect,
project selection, instance-user resolution, environment setup, agent
forwarding, command building, exec. -/
def shellHandler (cfg : Config) (w : World) (lu : LoginUser) : HandlerResult :=
  if !w.ctxHasLoginUser || !lu.IsValid then
    { writes := ["invalid connection data"], exit := some ExitCodeInvalidLogin }
  else if lu.User == "root" && lu.Instance == "%shell" then
    { incusShellCalled := true }
  else if !w.newServerOk then
    { exit := some ExitCodeConnectionError }
  else if !w.connectOk then
    { exit := some ExitCodeConnectionError }
  else if !lu.IsDefaultProject && !w.useProjectOk lu.Project then
    { writes := ["unknown project " ++ lu.Project ++ "\n"],
      exit := some ExitCodeInvalidProject,
      useProjectCalls := [lu.Project] }
  else
    let upCalls : List String := if lu.IsDefaultProject then [] else [lu.Project]
    let iuOpt : Option InstanceUser :=
      if lu.InstanceUser != "" then
        w.getInstanceUser lu.Project lu.Instance lu.InstanceUser
      else none
    let luCalls : List (String × String × String) :=
      if lu.InstanceUser != "" then [(lu.Project, lu.Instance, lu.InstanceUser)]
      else []
    match iuOpt with
    | none =>
      { writes := ["not found user or instance\n"],
        exit := some ExitCodeInvalidLogin,
        useProjectCalls := upCalls, getUserCalls := luCalls }
    | some iu =>
      let env := setupEnvironmentVariables w.environ iu w.ptyTerm
      if w.agentRequested && !w.agentListenerOk then
        { useProjectCalls := upCalls, getUserCalls := luCalls }
      else
        let env :=
          if w.agentRequested then
            match w.addSocket with
            | some socket => envInsert env "SSH_AUTH_SOCK" socket
            | none => env
          else env
        let rsc : Nat :=
          if w.agentRequested && (w.addSocket).isSome then 1 else 0
        let cb := buildCommandString w.rawCommand cfg.Shell iu w.remoteAddr
        let ug : Int × Int := if cb.2 then (iu.Uid, iu.Gid) else (0, 0)
        { useProjectCalls := upCalls, getUserCalls := luCalls,
          removeSocketCalls := rsc,
          execCall := some
            { Instance := lu.Instance, Cmd := cb.1, Env := env,
              IsPty := w.isPty, User := ug.1, Group := ug.2, Cwd := iu.Dir },
          exit := some w.execRet }

/-- Result of `cmd.Wait()` in `incusShell`: `success` is a nil error (the
child exited 0), `exited c` is an `exec.ExitError` with code `c`, `failed`
is any other wait error. -/
inductive WaitResult
  | success
  | exited (code : Int)
  | failed
deriving DecidableEq

/-- Oracle for one run of `incusShell`: whether `shlex.Split` of the fixed
command string succeeds, whether the SSH session has a PTY and its term,
whether `pty.Start` succeeds, and what `cmd.Wait()` reports. -/
structure ShellWorld where
  shlexOk : Bool
  isPty : Bool
  ptyTerm : String
  ptyStartOk : Bool
  waitResult : WaitResult

/-- Trace of one run of `incusShell`: strings written to the SSH session,
explicit `s.Exit` code (`none` when the handler returns without calling
it), whether the child process was started, and the child's environment. -/
structure ShellResult where
  writes : List String := []
  exit : Option Int := none
  childStarted : Bool := false
  childEnv : List String := []

/-- Embedding of `incusShell` (src/unnamed/part_001, lines 224-310).
The byte-copy loops and the window-resize forwarder are session plumbing
outside the shallow embedding; the trace records writes, the child's
environment and the exit reported for each `cmd.Wait()` outcome. -/
def incusShell (cfg : Config) (w : ShellWorld) : ShellResult :=
  if !w.shlexOk then
    { writes := ["Internal error: command parsing failed\n"],
      exit := some ExitCodeConnectionError }
  else if !w.isPty then
    { writes := ["No PTY requested.\n"],
      exit := some ExitCodeConnectionError }
  else
    let childEnv := ["TERM=" ++ w.ptyTerm,
                     "PATH=/bin:/usr/bin:/snap/bin:/usr/local/bin",
                     "INCUS_SOCKET=" ++ cfg.IncusSocket]
    if !w.ptyStartOk then
      { writes := ["Couldn\x27t allocate PTY\n"],
        exit := some ExitCodeConnectionError, childEnv := childEnv }
    else
      let welcome :=
        "\nincus shell emulator. Use Ctrl+c to exit\n\nHit Enter or type \x27help\x27 for help\n"
      let base : ShellResult :=
        { writes := [welcome], childStarted := true, childEnv := childEnv }
      match w.waitResult with
      | WaitResult.success => base
      | WaitResult.exited c => { base with exit := some c }
      | WaitResult.failed => { base with exit := some ExitCodeConnectionError }

/-- Modelled from the spec: the exit code the SSH layer reports for a
handler trace. When the handler returns without calling `s.Exit` the SSH
layer reports success (0); otherwise the explicit code stands. -/
def sessionExitCode (r : ShellResult) : Int :=
  r.exit.getD 0

/-- Result of `idGroupList` / `idGroupNameList` (package `user`): the group
list, the `errNotFound` sentinel, or the propagated error of the `id`
command itself. -/
inductive IdResult
  | ok (groups : List String)
  | errNotFound
  | errCmd (e : String)
deriving DecidableEq

/-- Embedding of `idGroupList` (src/unnamed/part_000, lines 20-32). The
output of `command(idExe, "-G", u.Username)` is the parameter: `ok data`
when the command succeeded with output `data`, `error e` when it failed. -/
def idGroupList (cmdOut : Except String String) : IdResult :=
  match cmdOut with
  | Except.error e => IdResult.errCmd e
  | Except.ok data =>
    let data := strTrim data
    if data.length > 0 then IdResult.ok (stringFields data)
    else IdResult.errNotFound

/-- Embedding of `idGroupNameList` (src/unnamed/part_000, lines 34-46),
identical to `idGroupList` up to the flag passed to the `id` command. -/
def idGroupNameList (cmdOut : Except String String) : IdResult :=
  match cmdOut with
  | Except.error e => IdResult.errCmd e
  | Except.ok data =>
    let data := strTrim data
    if data.length > 0 then IdResult.ok (stringFields data)
    else IdResult.errNotFound

/-- The initial value of the package-level `banner` variable
(src/server/banner.go, lines 10-18). -/
def banner0 : String :=
  "\n┌──────────────────────────────────────────────┐\n"
  ++ "│          _     ____  _                       │\n"
  ++ "│  ___ ___| |__ |___ \\(_)_ __   ___ _   _ ___  │\n"
  ++ "│ / __/ __| \x27_ \\  __) | | \x27_ \\ / __| | | / __| │\n"
  ++ "│ \\__ \\__ \\ | | |/ __/| | | | | (__| |_| \\__ \\ │\n"
  ++ "│ |___/___/_| |_|_____|_|_| |_|\\___|\\__,_|___/ │\n"
  ++ "└──────────────────────────────────────────────┘\n"

/-- Embedding of `bannerHandler` (src/server/banner.go, lines 20-34). The
source parses the login descriptor from `ctx.User()` (the parser is not
under src/ and is pure per the spec) and reads the hostname from the OS;
both are parameters here. The package-level `banner` variable is passed
and returned explicitly: the result is the new value of the variable and
the string returned to the SSH layer. -/
def bannerHandler (banner : String) (lu : LoginUser) (hostname : String) :
    String × String :=
  if !lu.IsValid then (banner, "")
  else
    let hostname := if hostname ≠ "" then " 💻 " ++ hostname else hostname
    let banner := banner ++
      "👤 " ++ lu.InstanceUser ++ " 📦 " ++ lu.Instance ++ "." ++ lu.Project
      ++ hostname
      ++ "\n────────────────────────────────────────────────\n"
    (banner, banner ++ "\n")

/-- The final value a sequence of map updates leaves at key `k`: the value
of the last binding of `k` in the entry list, if any. -/
def lastBinding (entries : List (String × String)) (k : String) :
    Option String :=
  entries.foldl (fun acc kv => if kv.1 = k then some kv.2 else acc) none

/-- Fixture: the in-container account of the spec's scenario 1. -/
def iu0 : InstanceUser :=
  { User := "alice", Uid := 1000, Gid := 1000,
    Dir := "/home/alice", Shell := "/bin/bash" }

/-- Fixture: the login descriptor `alice+web01` (default project). -/
def lu0 : LoginUser :=
  { User := "alice", InstanceUser := "alice",
    Instance := "web01", Project := "default" }

/-- Fixture: the self-service descriptor `root@%shell`. -/
def luShell : LoginUser :=
  { User := "root", InstanceUser := "root",
    Instance := "%shell", Project := "default" }

/-- Fixture: the descriptor `bob+api.ghost` of the spec's scenario 3. -/
def luGhost : LoginUser :=
  { User := "bob", InstanceUser := "bob",
    Instance := "api", Project := "ghost" }

/-- Fixture: a descriptor with an empty instance, hence invalid. -/
def luInvalid : LoginUser :=
  { User := "", InstanceUser := "", Instance := "", Project := "" }

/-- Fixture: a configuration with shell mode `shell`. -/
def cfg0 : Config :=
  { Shell := ShellMode.ShellShell, IncusSocket := "/run/incus.sock" }

/-- Fixture: a world in which every effectful call succeeds and no agent
forwarding is requested. -/
def wBase : World :=
  { ctxHasLoginUser := true, newServerOk := true, connectOk := true,
    useProjectOk := fun _ => true,
    getInstanceUser := fun _ _ _ => some iu0,
    agentRequested := false, agentListenerOk := true, addSocket := none,
    execRet := 0, execErr := false, environ := [], rawCommand := "",
    ptyTerm := "", isPty := true, remoteAddr := "10.0.0.1:22" }

/-- Fixture: agent forwarding requested but the host agent listener cannot
be created. -/
def wAgentFail : World :=
  { wBase with agentRequested := true, agentListenerOk := false }

/-- Fixture: agent forwarding requested and the proxy socket is added at
`/dev/agent0`; the remote command fails with exit code 7. -/
def wAgentOk : World :=
  { wBase with
    agentRequested := true
    agentListenerOk := true
    addSocket := some "/dev/agent0"
    execRet := 7
    execErr := true }

/-- Fixture: `UseProject` fails for every project. -/
def wProjFail : World :=
  { wBase with useProjectOk := fun _ => false }

/-- Fixture: `GetInstanceUser` finds no account. -/
def wNoUser : World :=
  { wBase with getInstanceUser := fun _ _ _ => none }

/-- Fixture: a valid descriptor with an empty instance user, for which the
dispatcher skips the `GetInstanceUser` lookup entirely. -/
def luNoUser : LoginUser :=
  { User := "alice", InstanceUser := "",
    Instance := "web01", Project := "default" }

/-- Fixture: the descriptor `alice+%shell`: the `%shell` instance with a
non-root user. -/
def luShellAlice : LoginUser :=
  { User := "alice", InstanceUser := "alice",
    Instance := "%shell", Project := "default" }

/-- Fixture: an `incusShell` world without a PTY. -/
def swNoPty : ShellWorld :=
  { shlexOk := true, isPty := false, ptyTerm := "", ptyStartOk := true,
    waitResult := WaitResult.success }

/-- Fixture: an `incusShell` world with a PTY whose child exits 3. -/
def swPty : ShellWorld :=
  { shlexOk := true, isPty := true, ptyTerm := "vt100", ptyStartOk := true,
    waitResult := WaitResult.exited 3 }

/-- C1: `buildCommandString` follows the documented command-string rules:
with an empty raw command, mode `su` yields `su - "<user>"` run as the host
user (`shouldRunAsUser = false`), mode `login` yields
`login -h "<host>" -f "<user>"` run as the host user, and mode `shell`
yields `<shell> -l` run as the target in-container user
(`shouldRunAsUser = true`); with a non-empty raw command it always runs as
the target in-container user, wrapped as `<shell> -c "<cmd>"` if and only
if the command contains the character `$`, and otherwise passed through
unchanged. -/
theorem c1_buildCommandString_rules (raw : String) (mode : ShellMode)
    (iu : InstanceUser) (remoteAddr : String) :
    (raw = "" →
      buildCommandString raw ShellMode.ShellSu iu remoteAddr
        = ("su - \"" ++ iu.User ++ "\"", false) ∧
      buildCommandString raw ShellMode.ShellLogin iu remoteAddr
        = ("login -h \"" ++ (splitOnChar remoteAddr ':').headD "" ++ "\" -f \""
            ++ iu.User ++ "\"", false) ∧
      buildCommandString raw ShellMode.ShellShell iu remoteAddr
        = (iu.Shell ++ " -l", true)) ∧
    (raw ≠ "" →
      (buildCommandString raw mode iu remoteAddr).2 = true ∧
      (strContains raw '$' = true →
        (buildCommandString raw mode iu remoteAddr).1
          = iu.Shell ++ " -c \"" ++ raw ++ "\"") ∧
      (strContains raw '$' = false →
        (buildCommandString raw mode iu remoteAddr).1 = raw)) := by
  constructor
  · intro h
    subst h
    exact ⟨rfl, rfl, rfl⟩
  · intro h
    simp only [buildCommandString, if_neg h]
    cases hc : strContains raw '$' <;> simp

/-- C1 witness: at the concrete raw command `echo $USER` (which contains
`$`), shell mode `shell`, account `alice`, the built command is the wrapped
`/bin/bash -c "echo $USER"` run as the target user. -/
theorem c1_buildCommandString_rules_witness :
    (buildCommandString "echo $USER" ShellMode.ShellShell iu0 "10.0.0.1:22").1
      = "/bin/bash -c \"echo $USER\"" ∧
    (buildCommandString "echo $USER" ShellMode.ShellShell iu0 "10.0.0.1:22").2
      = true := by
  have h := (c1_buildCommandString_rules "echo $USER" ShellMode.ShellShell
    iu0 "10.0.0.1:22").2 (by decide)
  exact ⟨(h.2.1 (by decide)).trans (by decide), h.1⟩

/-- C9: `idGroupList` and `idGroupNameList` return `errNotFound` exactly
when the `id` utility's output is empty after trimming whitespace, and
otherwise return the whitespace-separated fields of the output with no
error; a failure of the `id` command itself is propagated as that error,
not as `errNotFound`. -/
theorem c9_id_group_lists (cmdOut : Except String String) :
    (idGroupList cmdOut = IdResult.errNotFound
      ↔ ∃ data, cmdOut = Except.ok data ∧ (strTrim data).length = 0) ∧
    (∀ data, cmdOut = Except.ok data → (strTrim data).length > 0 →
      idGroupList cmdOut = IdResult.ok (stringFields (strTrim data))) ∧
    (∀ e, cmdOut = Except.error e → idGroupList cmdOut = IdResult.errCmd e) ∧
    (idGroupNameList cmdOut = IdResult.errNotFound
      ↔ ∃ data, cmdOut = Except.ok data ∧ (strTrim data).length = 0) ∧
    (∀ data, cmdOut = Except.ok data → (strTrim data).length > 0 →
      idGroupNameList cmdOut = IdResult.ok (stringFields (strTrim data))) ∧
    (∀ e, cmdOut = Except.error e →
      idGroupNameList cmdOut = IdResult.errCmd e) := by
  cases cmdOut with
  | error e =>
    simp [idGroupList, idGroupNameList]
  | ok data =>
    by_cases h : (strTrim data).length > 0
    · simp [idGroupList, idGroupNameList, h, Nat.pos_iff_ne_zero.mp h]
    · have h0 : (strTrim data).length = 0 := Nat.eq_zero_of_not_pos h
      simp [idGroupList, idGroupNameList, h, h0]

/-- C9 witness: all-blank output of `id` yields `errNotFound`, the output
`1000 27` yields the two fields, and a failing `id` command propagates its
own error. -/
theorem c9_id_group_lists_witness :
    idGroupList (Except.ok " \n ") = IdResult.errNotFound ∧
    idGroupList (Except.ok " 1000 27\n") = IdResult.ok ["1000", "27"] ∧
    idGroupNameList (Except.error "exec failed")
      = IdResult.errCmd "exec failed" := by
  refine ⟨?_, ?_, ?_⟩
  · exact (c9_id_group_lists (Except.ok " \n ")).1.mpr ⟨" \n ", rfl, by decide⟩
  · exact ((c9_id_group_lists (Except.ok " 1000 27\n")).2.1 " 1000 27\n" rfl
      (by decide)).trans (by decide)
  · exact (c9_id_group_lists (Except.error "exec failed")).2.2.2.2.2
      "exec failed" rfl

/-- The environment loop of `setupEnvironmentVariables` computes, at each
key, the last binding of that key among the parsed entries. -/
theorem envFold_eq (l : List String) (m : String → Option String)
    (k : String) :
    (l.foldl envStep m) k =
      ((l.filterMap parseEnvEntry).foldl
        (fun acc kv => if kv.1 = k then some kv.2 else acc) (m k)) := by
  induction l generalizing m with
  | nil => rfl
  | cons a l ih =>
    simp only [List.foldl_cons, List.filterMap_cons]
    cases h : parseEnvEntry a with
    | none =>
      simp only [envStep, h]
      exact ih m
    | some kv =>
      simp only [envStep, h, List.foldl_cons]
      rw [ih]
      congr 1
      simp only [envInsert]
      by_cases hk : k = kv.1
      · simp [hk]
      · simp [hk, Ne.symm hk]

/-- C2 counterexample: with the client request `A=1` followed by `A=2`, the
produced map binds `A` to `2`, so it does not contain the client entry
`A=1` even though `A` is none of the overridden names; a map cannot contain
two entries for one key, so the claim fails as stated. -/
theorem c2_setupEnvironmentVariables_counterexample :
    ("A", "1") ∈ (["A=1", "A=2"].filterMap parseEnvEntry) ∧
    ¬ ("A" ∈ (["TERM", "USER", "HOME", "SHELL"] : List String)) ∧
    setupEnvironmentVariables ["A=1", "A=2"] iu0 "vt100" "A" = some "2" ∧
    setupEnvironmentVariables ["A=1", "A=2"] iu0 "vt100" "A" ≠ some "1" :=
  ⟨by decide, by decide, by decide, by decide⟩

/-- C2 (amended): the environment map produced by
`setupEnvironmentVariables` maps each client-sent key other than `TERM`,
`USER`, `HOME`, `SHELL` to the value of the LAST `KEY=VALUE` entry with
that key in the SSH session's environment request (in particular it
contains every client entry whose key is not repeated), maps `TERM` to the
PTY term when that is non-empty and to `xterm-256color` otherwise, and maps
`USER`, `HOME` and `SHELL` to the instance user's name, home directory and
shell, overriding any values of those names the client sent. -/
theorem c2_setupEnvironmentVariables_amended (environ : List String)
    (iu : InstanceUser) (ptyTerm : String) (k : String)
    (hk : ¬ k ∈ (["TERM", "USER", "HOME", "SHELL"] : List String)) :
    setupEnvironmentVariables environ iu ptyTerm k
      = lastBinding (environ.filterMap parseEnvEntry) k ∧
    setupEnvironmentVariables environ iu ptyTerm "TERM"
      = some (if ptyTerm ≠ "" then ptyTerm else "xterm-256color") ∧
    setupEnvironmentVariables environ iu ptyTerm "USER" = some iu.User ∧
    setupEnvironmentVariables environ iu ptyTerm "HOME" = some iu.Dir ∧
    setupEnvironmentVariables environ iu ptyTerm "SHELL" = some iu.Shell := by
  have hx : k ≠ "TERM" ∧ k ≠ "USER" ∧ k ≠ "HOME" ∧ k ≠ "SHELL" := by
    simpa using hk
  obtain ⟨h1, h2, h3, h4⟩ := hx
  refine ⟨?_, ?_, ?_, ?_, ?_⟩
  · simp only [setupEnvironmentVariables, envInsert, h1, h2, h3, h4,
      if_false, ite_false]
    rw [envFold_eq]
    rfl
  · have e1 : ("TERM" : String) ≠ "SHELL" := by decide
    have e2 : ("TERM" : String) ≠ "HOME" := by decide
    have e3 : ("TERM" : String) ≠ "USER" := by decide
    simp [setupEnvironmentVariables, envInsert, e1, e2, e3]
  · have e1 : ("USER" : String) ≠ "SHELL" := by decide
    have e2 : ("USER" : String) ≠ "HOME" := by decide
    simp [setupEnvironmentVariables, envInsert, e1, e2]
  · have e1 : ("HOME" : String) ≠ "SHELL" := by decide
    simp [setupEnvironmentVariables, envInsert, e1]
  · simp [setupEnvironmentVariables, envInsert]

/-- C2 witness: with the single client entry `FOO=bar` and an empty PTY
term, the map binds `FOO` to `bar` and `TERM` to `xterm-256color`. -/
theorem c2_setupEnvironmentVariables_amended_witness :
    setupEnvironmentVariables ["FOO=bar"] iu0 "" "FOO" = some "bar" ∧
    setupEnvironmentVariables ["FOO=bar"] iu0 "" "TERM"
      = some "xterm-256color" := by
  have h := c2_setupEnvironmentVariables_amended ["FOO=bar"] iu0 "" "FOO"
    (by decide)
  exact ⟨h.1.trans (by decide), h.2.1.trans (by decide)⟩

/-- C10: for every login descriptor that is invalid, `bannerHandler`
returns the empty string (and leaves the package-level banner variable
unchanged), so no instance/user information is shown before a valid login
descriptor exists. -/
theorem c10_bannerHandler_invalid (b : String) (lu : LoginUser)
    (hostname : String) (hv : lu.IsValid = false) :
    bannerHandler b lu hostname = (b, "") := by
  simp [bannerHandler, hv]

/-- C10 witness: at the concrete invalid descriptor (empty instance) the
banner handler returns the empty string and leaves the template unchanged. -/
theorem c10_bannerHandler_invalid_witness :
    bannerHandler banner0 luInvalid "host1" = (banner0, "") :=
  c10_bannerHandler_invalid banner0 luInvalid "host1" (by decide)

/-- C3: when the login descriptor names a project other than `default` the
dispatcher calls `UseProject` with that project; if `UseProject` fails it
writes `unknown project <project>\n` to the SSH session and exits with code
2 (`ExitCodeInvalidProject`) without invoking the exec engine; when the
project is `default`, `UseProject` is never called. -/
theorem c3_project_dispatch (cfg : Config) (w : World) (lu : LoginUser)
    (hctx : w.ctxHasLoginUser = true) (hv : lu.IsValid = true)
    (hsh : (lu.User == "root" && lu.Instance == "%shell") = false)
    (hns : w.newServerOk = true) (hc : w.connectOk = true) :
    (lu.Project ≠ "default" →
      (shellHandler cfg w lu).useProjectCalls = [lu.Project] ∧
      (w.useProjectOk lu.Project = false →
        (shellHandler cfg w lu).writes
          = ["unknown project " ++ lu.Project ++ "\n"] ∧
        (shellHandler cfg w lu).exit = some ExitCodeInvalidProject ∧
        ExitCodeInvalidProject = 2 ∧
        (shellHandler cfg w lu).execCall = none)) ∧
    (lu.Project = "default" →
      (shellHandler cfg w lu).useProjectCalls = []) := by
  constructor
  · intro hp
    have hd : lu.IsDefaultProject = false := by
      simp [LoginUser.IsDefaultProject, hp]
    cases hu : w.useProjectOk lu.Project with
    | false =>
      simp [shellHandler, hctx, hv, hsh, hns, hc, hd, hu,
        ExitCodeInvalidProject]
    | true =>
      refine ⟨?_, by intro hu2; exact absurd hu2 (by decide)⟩
      simp only [shellHandler, hctx, hv, hsh, hns, hc, hd, hu,
        Bool.not_true, Bool.not_false, Bool.false_or, Bool.and_false,
        Bool.and_true, Bool.false_eq_true, if_false, ite_false]
      cases hiu : (if lu.InstanceUser != "" then
          w.getInstanceUser lu.Project lu.Instance lu.InstanceUser
        else none) with
      | none => simp [hiu]
      | some iu =>
        simp only [hiu]
        cases ha : w.agentRequested && !w.agentListenerOk with
        | true => simp [ha]
        | false => simp [ha]
  · intro hp
    have hd : lu.IsDefaultProject = true := by
      simp [LoginUser.IsDefaultProject, hp]
    simp only [shellHandler, hctx, hv, hsh, hns, hc, hd,
      Bool.not_true, Bool.false_or, Bool.false_and, Bool.false_eq_true,
      if_false, ite_false]
    cases hiu : (if lu.InstanceUser != "" then
        w.getInstanceUser lu.Project lu.Instance lu.InstanceUser
      else none) with
    | none => simp [hiu]
    | some iu =>
      simp only [hiu]
      cases ha : w.agentRequested && !w.agentListenerOk with
      | true => simp [ha]
      | false => simp [ha]

/-- C3 witness: for `bob+api.ghost` with a failing `UseProject`, the
dispatcher calls `UseProject` with `ghost`, writes
`unknown project ghost\n`, exits 2, and never invokes the exec engine. -/
theorem c3_project_dispatch_witness :
    (shellHandler cfg0 wProjFail luGhost).useProjectCalls = ["ghost"] ∧
    (shellHandler cfg0 wProjFail luGhost).writes
      = ["unknown project ghost\n"] ∧
    (shellHandler cfg0 wProjFail luGhost).exit = some 2 ∧
    (shellHandler cfg0 wProjFail luGhost).execCall = none ∧
    (shellHandler cfg0 wBase lu0).useProjectCalls = [] := by
  have h := (c3_project_dispatch cfg0 wProjFail luGhost rfl (by decide)
    (by decide) rfl rfl).1 (by decide)
  have h2 := h.2 rfl
  have hdef := (c3_project_dispatch cfg0 wBase lu0 rfl (by decide)
    (by decide) rfl rfl).2 rfl
  refine ⟨?_, ?_, ?_, h2.2.2.2, hdef⟩
  · exact h.1.trans (by decide)
  · exact h2.1.trans (by decide)
  · exact h2.2.1.trans (by rw [h2.2.2.1])

/-- C4: when `GetInstanceUser` resolves no account — including the case of
an empty instance user, for which the lookup is skipped entirely — the
dispatcher writes `not found user or instance\n` to the SSH session and
exits with `ExitCodeInvalidLogin` (1) without invoking the exec engine. -/
theorem c4_user_not_found (cfg : Config) (w : World) (lu : LoginUser)
    (hctx : w.ctxHasLoginUser = true) (hv : lu.IsValid = true)
    (hsh : (lu.User == "root" && lu.Instance == "%shell") = false)
    (hns : w.newServerOk = true) (hc : w.connectOk = true)
    (hproj : lu.IsDefaultProject = true ∨ w.useProjectOk lu.Project = true) :
    ((if lu.InstanceUser != "" then
        w.getInstanceUser lu.Project lu.Instance lu.InstanceUser
      else none) = none →
      (shellHandler cfg w lu).writes = ["not found user or instance\n"] ∧
      (shellHandler cfg w lu).exit = some ExitCodeInvalidLogin ∧
      ExitCodeInvalidLogin = 1 ∧
      (shellHandler cfg w lu).execCall = none) ∧
    (lu.InstanceUser = "" →
      (shellHandler cfg w lu).getUserCalls = [] ∧
      (shellHandler cfg w lu).writes = ["not found user or instance\n"] ∧
      (shellHandler cfg w lu).exit = some ExitCodeInvalidLogin) := by
  have hpr : (!lu.IsDefaultProject && !w.useProjectOk lu.Project) = false := by
    rcases hproj with h | h <;> simp [h]
  constructor
  · intro hiu
    by_cases he : lu.InstanceUser = ""
    · simp [shellHandler, hctx, hv, hsh, hns, hc, hpr, he,
        ExitCodeInvalidLogin]
    · have hg : w.getInstanceUser lu.Project lu.Instance lu.InstanceUser
          = none := by
        simpa [he] using hiu
      simp [shellHandler, hctx, hv, hsh, hns, hc, hpr, he, hg,
        ExitCodeInvalidLogin]
  · intro hiu
    simp [shellHandler, hctx, hv, hsh, hns, hc, hpr, hiu]

/-- C4 witness: with no resolvable account for `alice+web01` the dispatcher
reports `not found user or instance\n` and exit 1 with no exec; with the
empty instance user the lookup list is empty and the outcome the same. -/
theorem c4_user_not_found_witness :
    (shellHandler cfg0 wNoUser lu0).writes
      = ["not found user or instance\n"] ∧
    (shellHandler cfg0 wNoUser lu0).exit = some 1 ∧
    (shellHandler cfg0 wNoUser lu0).execCall = none ∧
    (shellHandler cfg0 wBase luNoUser).getUserCalls = [] ∧
    (shellHandler cfg0 wBase luNoUser).exit = some 1 := by
  have h := (c4_user_not_found cfg0 wNoUser lu0 rfl (by decide) (by decide)
    rfl rfl (Or.inl (by decide))).1 rfl
  have h2 := (c4_user_not_found cfg0 wBase luNoUser rfl (by decide)
    (by decide) rfl rfl (Or.inl (by decide))).2 rfl
  have he1 : ExitCodeInvalidLogin = 1 := h.2.2.1
  exact ⟨h.1, h.2.1.trans (by rw [he1]), h.2.2.2, h2.1,
    h2.2.2.trans (by rw [he1])⟩

/-- Helper: under a present and valid login descriptor, the dispatcher's
`incusShell` delegation happens exactly when the source's short-circuit
condition `lu.User == "root" && lu.Instance == "%shell"` holds. -/
theorem shellHandler_shortcut_cond (cfg : Config) (w : World)
    (lu : LoginUser) (hctx : w.ctxHasLoginUser = true)
    (hv : lu.IsValid = true) :
    (shellHandler cfg w lu).incusShellCalled
      = (lu.User == "root" && lu.Instance == "%shell") := by
  cases hro : lu.User == "root" && lu.Instance == "%shell" with
  | true => simp [shellHandler, hctx, hv, hro]
  | false =>
    simp only [shellHandler, hctx, hv, hro, Bool.not_true, Bool.false_or,
      Bool.false_eq_true, if_false, ite_false]
    split
    · rfl
    · split
      · rfl
      · split
        · rfl
        · split
          · rfl
          · split
            · rfl
            · split <;> rfl

/-- C5: the dispatcher delegates to the self-service subshell `incusShell`
if and only if the login descriptor's user is `root` and its instance is
`%shell`; a `%shell` instance with a non-root user is treated as a normal
instance lookup (the dispatcher proceeds to `GetInstanceUser`), not as
self-service. -/
theorem c5_shell_shortcut (cfg : Config) (w : World) (lu : LoginUser)
    (hctx : w.ctxHasLoginUser = true) (hv : lu.IsValid = true) :
    ((shellHandler cfg w lu).incusShellCalled = true
      ↔ (lu.User = "root" ∧ lu.Instance = "%shell")) ∧
    (lu.Instance = "%shell" → lu.User ≠ "root" → lu.InstanceUser ≠ "" →
      w.newServerOk = true → w.connectOk = true →
      (lu.IsDefaultProject = true ∨ w.useProjectOk lu.Project = true) →
      (shellHandler cfg w lu).getUserCalls
        = [(lu.Project, lu.Instance, lu.InstanceUser)]) := by
  constructor
  · rw [shellHandler_shortcut_cond cfg w lu hctx hv]
    simp [Bool.and_eq_true]
  · intro hi hr hiu hns hc hproj
    have hro : (lu.User == "root" && lu.Instance == "%shell") = false := by
      simp [hr]
    have hpr : (!lu.IsDefaultProject && !w.useProjectOk lu.Project)
        = false := by
      rcases hproj with h | h <;> simp [h]
    have hne : (lu.InstanceUser != "") = true := by simp [hiu]
    simp only [shellHandler, hctx, hv, hro, hns, hc, hpr, hne,
      Bool.not_true, Bool.false_or, Bool.false_eq_true, if_false,
      ite_false, if_true, ite_true]
    cases hgi : w.getInstanceUser lu.Project lu.Instance lu.InstanceUser with
    | none => simp [hgi]
    | some iu =>
      cases ha : w.agentRequested && !w.agentListenerOk with
      | true => simp [hgi, ha]
      | false => simp [hgi, ha]

/-- C5 witness: `root@%shell` delegates to the subshell; `alice+%shell`
does not, and instead performs the normal `GetInstanceUser` lookup. -/
theorem c5_shell_shortcut_witness :
    (shellHandler cfg0 wBase luShell).incusShellCalled = true ∧
    (shellHandler cfg0 wBase luShellAlice).incusShellCalled = false ∧
    (shellHandler cfg0 wBase luShellAlice).getUserCalls
      = [("default", "%shell", "alice")] := by
  have h1 := (c5_shell_shortcut cfg0 wBase luShell rfl (by decide)).1.mpr
    ⟨rfl, rfl⟩
  have h2 := c5_shell_shortcut cfg0 wBase luShellAlice rfl (by decide)
  refine ⟨h1, ?_, ?_⟩
  · cases hb : (shellHandler cfg0 wBase luShellAlice).incusShellCalled with
    | false => rfl
    | true =>
      have := h2.1.mp hb
      exact absurd this.1 (by decide)
  · exact (h2.2 rfl (by decide) (by decide) rfl rfl
      (Or.inl (by decide))).trans (by decide)

/-- C6 counterexample: with agent forwarding requested and the host agent
listener failing to be created, the handler returns without running the
exec engine (and without any exit code): the session does not continue. -/
theorem c6_agent_counterexample :
    wAgentFail.agentRequested = true ∧
    (shellHandler cfg0 wAgentFail lu0).execCall.isNone = true ∧
    (shellHandler cfg0 wAgentFail lu0).exit = none :=
  ⟨rfl, by decide, by decide⟩

/-- C6 (amended): when agent forwarding is requested, a failure to create
the host agent listener aborts the handler without invoking the exec
engine and without an exit code; a failure of `AddSocket` is logged and the
session continues without agent forwarding (the environment's
`SSH_AUTH_SOCK` stays whatever the client environment produced, no
`RemoveSocket` is registered, exec still runs); when `AddSocket` succeeds,
`SSH_AUTH_SOCK` is set to the returned in-container path and `RemoveSocket`
runs exactly once on session end, even when the remote command fails. -/
theorem c6_agent_amended (cfg : Config) (w : World) (lu : LoginUser)
    (iu : InstanceUser)
    (hctx : w.ctxHasLoginUser = true) (hv : lu.IsValid = true)
    (hsh : (lu.User == "root" && lu.Instance == "%shell") = false)
    (hns : w.newServerOk = true) (hc : w.connectOk = true)
    (hproj : lu.IsDefaultProject = true ∨ w.useProjectOk lu.Project = true)
    (hiu0 : lu.InstanceUser ≠ "")
    (hiu : w.getInstanceUser lu.Project lu.Instance lu.InstanceUser
      = some iu)
    (hag : w.agentRequested = true) :
    (w.agentListenerOk = false →
      (shellHandler cfg w lu).execCall.isNone = true ∧
      (shellHandler cfg w lu).exit = none ∧
      (shellHandler cfg w lu).removeSocketCalls = 0) ∧
    (w.agentListenerOk = true →
      (∀ p, w.addSocket = some p →
        (shellHandler cfg w lu).removeSocketCalls = 1 ∧
        (shellHandler cfg w lu).exit = some w.execRet ∧
        ((shellHandler cfg w lu).execCall.map
          (fun ec => ec.Env "SSH_AUTH_SOCK")) = some (some p)) ∧
      (w.addSocket = none →
        (shellHandler cfg w lu).removeSocketCalls = 0 ∧
        (shellHandler cfg w lu).exit = some w.execRet ∧
        ((shellHandler cfg w lu).execCall.map
          (fun ec => ec.Env "SSH_AUTH_SOCK"))
          = some (setupEnvironmentVariables w.environ iu w.ptyTerm
              "SSH_AUTH_SOCK"))) := by
  have hpr : (!lu.IsDefaultProject && !w.useProjectOk lu.Project)
      = false := by
    rcases hproj with h | h <;> simp [h]
  have hne : (lu.InstanceUser != "") = true := by simp [hiu0]
  constructor
  · intro hal
    simp [shellHandler, hctx, hv, hsh, hns, hc, hpr, hne, hiu, hag, hal]
  · intro hal
    constructor
    · intro p hp
      simp [shellHandler, hctx, hv, hsh, hns, hc, hpr, hne, hiu, hag, hal,
        hp, envInsert]
    · intro hp
      simp [shellHandler, hctx, hv, hsh, hns, hc, hpr, hne, hiu, hag, hal,
        hp]

/-- C6 witness: with agent forwarding requested, listener creation
succeeding, `AddSocket` returning `/dev/agent0` and the remote command
failing with exit 7, the exec request carries
`SSH_AUTH_SOCK=/dev/agent0` and `RemoveSocket` runs exactly once. -/
theorem c6_agent_amended_witness :
    (shellHandler cfg0 wAgentOk lu0).removeSocketCalls = 1 ∧
    (shellHandler cfg0 wAgentOk lu0).exit = some 7 ∧
    ((shellHandler cfg0 wAgentOk lu0).execCall.map
      (fun ec => ec.Env "SSH_AUTH_SOCK")) = some (some "/dev/agent0") := by
  have h := ((c6_agent_amended cfg0 wAgentOk lu0 iu0 rfl (by decide)
    (by decide) rfl rfl (Or.inl (by decide)) (by decide) rfl rfl).2 rfl).1
    "/dev/agent0" rfl
  exact ⟨h.1, h.2.1, h.2.2⟩

/-- C7: without a PTY on the SSH session, `incusShell` writes
`No PTY requested.` and exits with code 255 (`ExitCodeConnectionError`)
without starting a child process; with a PTY, the child's environment
includes `TERM`, the fixed `PATH`, and the container-admin socket path
(`INCUS_SOCKET`), and the exit code reported to the SSH layer is the
child's exit code (the source calls `s.Exit` only on a non-nil wait error;
a nil wait error means the child exited 0 and the SSH layer reports 0). -/
theorem c7_incusShell_pty (cfg : Config) (w : ShellWorld)
    (hx : w.shlexOk = true) :
    (w.isPty = false →
      (incusShell cfg w).writes = ["No PTY requested.\n"] ∧
      (incusShell cfg w).exit = some ExitCodeConnectionError ∧
      ExitCodeConnectionError = 255 ∧
      (incusShell cfg w).childStarted = false) ∧
    (w.isPty = true → w.ptyStartOk = true →
      (incusShell cfg w).childStarted = true ∧
      ("TERM=" ++ w.ptyTerm) ∈ (incusShell cfg w).childEnv ∧
      "PATH=/bin:/usr/bin:/snap/bin:/usr/local/bin"
        ∈ (incusShell cfg w).childEnv ∧
      ("INCUS_SOCKET=" ++ cfg.IncusSocket) ∈ (incusShell cfg w).childEnv ∧
      (∀ c, w.waitResult = WaitResult.exited c →
        sessionExitCode (incusShell cfg w) = c) ∧
      (w.waitResult = WaitResult.success →
        sessionExitCode (incusShell cfg w) = 0)) := by
  constructor
  · intro hp
    simp [incusShell, hx, hp, ExitCodeConnectionError]
  · intro hp hs
    simp only [incusShell, hx, hp, hs, Bool.not_true, Bool.false_eq_true,
      if_false, ite_false]
    cases hw : w.waitResult with
    | success => simp [sessionExitCode]
    | exited c => simp [sessionExitCode]
    | failed => simp [sessionExitCode]

/-- C7 witness: without a PTY the self-service subshell reports 255 and
starts no child; with a PTY whose child exits 3 the reported code is 3 and
the environment carries `TERM`, the fixed `PATH` and the socket path. -/
theorem c7_incusShell_pty_witness :
    (incusShell cfg0 swNoPty).writes = ["No PTY requested.\n"] ∧
    (incusShell cfg0 swNoPty).exit = some 255 ∧
    (incusShell cfg0 swNoPty).childStarted = false ∧
    sessionExitCode (incusShell cfg0 swPty) = 3 ∧
    "INCUS_SOCKET=/run/incus.sock" ∈ (incusShell cfg0 swPty).childEnv := by
  have h1 := (c7_incusShell_pty cfg0 swNoPty rfl).1 rfl
  have h2 := (c7_incusShell_pty cfg0 swPty rfl).2 rfl rfl
  refine ⟨h1.1, h1.2.1.trans (by rw [h1.2.2.1]), h1.2.2.2, ?_, ?_⟩
  · exact h2.2.2.2.2.1 3 rfl
  · have he : "INCUS_SOCKET=/run/incus.sock"
        = "INCUS_SOCKET=" ++ cfg0.IncusSocket := by decide
    rw [he]
    exact h2.2.2.2.1

/-- C8: the claim (every call leaves the package-level banner template
unchanged; two successive calls for the same valid descriptor and hostname
return the same string) states the intended behaviour, which the spec
itself records; the source instead appends the per-session suffix to the
package-level `banner` variable. At the concrete valid descriptor
`alice+web01` with hostname `host1`, the first call changes the variable,
and a second call returns a strictly different (longer) string. -/
theorem c8_bannerHandler_mutates :
    lu0.IsValid = true ∧
    (bannerHandler banner0 lu0 "host1").1 ≠ banner0 ∧
    (bannerHandler (bannerHandler banner0 lu0 "host1").1 lu0 "host1").2
      ≠ (bannerHandler banner0 lu0 "host1").2 := by
  refine ⟨by decide, ?_, ?_⟩ <;> decide

end Ssh2Incus
